import Mathlib

/-!
Shallow embedding of the insect-detect preview and upload scripts
(`yolov5_preview.py` and `utils/send_data.py`), together with theorems
settling the specification claims against it.

Conventions:
* Normalized bounding-box coordinates and backoff durations are modelled as
  exact rationals (the floats involved are small dyadic-scale values whose
  comparisons and truncations are exact at the magnitudes that occur here).
* Timestamps are modelled as microseconds since 0001-01-01T00:00:00 in the
  proleptic Gregorian calendar, the value `datetime.strptime` produces up to
  the fixed epoch shift.
* Behaviour of the third-party libraries the scripts call into
  (`urllib3`/`requests` retry machinery, the depthai output-queue API,
  `numpy` clipping, CPython `strptime`, pandas string reductions) is
  embedded from those libraries' shipped sources and documented semantics,
  since the scripts' observable behaviour is defined by them.
-/

namespace InsectDetect

/-! ## FrameCoordinateMapper: `frame_norm` (yolov5_preview.py)

`frame_norm` builds `norm_vals = np.full(len(bbox), frame.shape[0])` (the
frame height), overwrites the even indices with `frame.shape[1]` (the width),
clips the bbox into [0, 1] and multiplies elementwise, then converts with
`astype(int)`, which truncates toward zero. -/

/-- Model of `np.clip(x, 0, 1)` on one component. -/
def clip01 (x : ℚ) : ℚ := min (max x 0) 1

/-- Model of numpy `astype(int)` on a scalar: truncation toward zero. -/
def npTrunc (q : ℚ) : ℤ := if q < 0 then -(⌊-q⌋) else ⌊q⌋

/-- The two pixel dimensions of a decoded frame: `shape[0]` is the height,
`shape[1]` is the width. -/
structure FrameShape where
  h : ℕ
  w : ℕ
deriving DecidableEq, Repr

/-- Embedding of `frame_norm(frame, bbox)` for a 4-tuple bbox
`(xmin, ymin, xmax, ymax)`: indices 0 and 2 scale by the width,
indices 1 and 3 by the height, after clipping into [0, 1]. -/
def frame_norm (fr : FrameShape) (bbox : ℚ × ℚ × ℚ × ℚ) : ℤ × ℤ × ℤ × ℤ :=
  (npTrunc (clip01 bbox.1 * fr.w),
   npTrunc (clip01 bbox.2.1 * fr.h),
   npTrunc (clip01 bbox.2.2.1 * fr.w),
   npTrunc (clip01 bbox.2.2.2 * fr.h))

/-! ## StreamConsumptionLoop retrieval (yolov5_preview.py)

The output queues are created with `blocking=False` (producer side drops the
oldest item when full), but the loop body retrieves with
`q_frame.get()` / `q_nn.get()`.  Modelled from the depthai API:
`DataOutputQueue.get` waits until a message is available (it never returns
`None`); the non-waiting variant would be `tryGet`.  A queue is modelled as
the list of currently available messages; an iteration whose `get` finds an
empty queue stalls there and does not reach the quit-key poll. -/

/-- Outcome of one iteration of the preview loop body. -/
inductive IterOutcome where
  /-- a `get()` call found its queue empty and is waiting -/
  | blocked
  /-- both messages were retrieved; the iteration went on to render and
  reached the `cv2.waitKey` quit-key check -/
  | ranQuitCheck
deriving DecidableEq, Repr

/-- One iteration of the preview loop: `q_frame.get()`, then `q_nn.get()`,
then (processing and) the quit-key check.  `get` on an empty queue blocks. -/
def previewIteration (qFrame : List ℕ) (qNN : List ℕ) : IterOutcome :=
  match qFrame with
  | [] => .blocked
  | _ :: _ =>
    match qNN with
    | [] => .blocked
    | _ :: _ => .ranQuitCheck

/-! ## ResilientUploader: `post_with_retry` (utils/send_data.py)

The script builds `HTTPAdapter(max_retries=Retry(total=5, backoff_factor=0.1,
status_forcelist=[429, 500, 502, 503, 504]))` and mounts it on the
`"https://"` prefix only, then issues `session.post(...)`.

The retry semantics is embedded from urllib3 (`util/retry.py`,
`connectionpool.py`, v1.26; v2.x agrees on every point used here):
* `Retry` is constructed without `allowed_methods`, so the default
  `DEFAULT_ALLOWED_METHODS = {HEAD, GET, PUT, DELETE, OPTIONS, TRACE}`
  applies; `is_retry(method, status)` returns False whenever the method is
  not in that set, so no HTTP status is ever retried for POST and the
  response is returned as-is.
* Connection-establishment errors are retried regardless of method,
  decrementing `total`; when `total` drops below zero, `MaxRetryError`
  is raised, which requests maps to `ConnectionError`.
* Read errors are re-raised immediately for a method outside the allowed
  set (`read is False or not _is_method_retryable(method)`).
* `get_backoff_time` returns 0 while the failure history holds at most one
  entry, and `backoff_factor * 2 ** (len(history) - 1)` afterwards, so the
  sleeps before successive retries are 0, 0.2, 0.4, 0.8, 1.6 seconds.
* A request whose URL scheme is plain `http://` is served by the session's
  default adapter (`requests.Session` mounts `HTTPAdapter()` with
  `max_retries=Retry(0, read=False)` for the `"http://"` prefix, and
  `get_adapter` picks the mounted adapter whose prefix the URL starts
  with), hence no retry and no backoff at all. -/

/-- What the remote endpoint does on one HTTP attempt (attempts are numbered
from 0). -/
inductive Outcome where
  /-- the server answers with this HTTP status -/
  | resp (status : ℕ)
  /-- establishing the connection fails (connect error / connect timeout) -/
  | connErr
  /-- the request is sent but reading the response fails (read timeout) -/
  | readErr
deriving DecidableEq, Repr

/-- What `post_with_retry` delivers to its caller: a returned response, or
the requests-level exception that propagates. -/
inductive PostResult where
  /-- the response object is returned with this status -/
  | resp (status : ℕ)
  /-- `requests.exceptions.ConnectionError` (from `MaxRetryError` on
  connection failures) -/
  | connError
  /-- `requests.exceptions.ReadTimeout` (read error, not retried for POST) -/
  | readTimeout
  /-- `requests.exceptions.RetryError` (status retries exhausted with
  `raise_on_status`) -/
  | retryError
deriving DecidableEq, Repr

/-- `status_forcelist` passed to `Retry` in `post_with_retry`. -/
def statusForcelist : List ℕ := [429, 500, 502, 503, 504]

/-- urllib3 `Retry.DEFAULT_ALLOWED_METHODS`: the methods eligible for
status-based (and read-error) retries when `allowed_methods` is left at its
default, as in `post_with_retry`. -/
def defaultAllowedMethods : List String :=
  ["HEAD", "GET", "PUT", "DELETE", "OPTIONS", "TRACE"]

/-- urllib3 `Retry._is_method_retryable` under the default allowed set. -/
def isMethodRetryable (method : String) : Bool :=
  method ∈ defaultAllowedMethods

/-- urllib3 `Retry.is_retry(method, status)` for the mounted adapter (no
Retry-After header in the model): the method must be in the allowed set and
the status in the forcelist. -/
def isRetryStatus (method : String) (status : ℕ) : Bool :=
  isMethodRetryable method && status ∈ statusForcelist

/-- The `backoff_factor` passed to `Retry` (0.1 seconds). -/
def backoffFactor : ℚ := 1 / 10

/-- urllib3 `Retry.get_backoff_time` when the failure history has
`historyLen` entries: 0 while at most one entry, else
`backoff_factor * 2 ** (historyLen - 1)` (the 120 s cap is far above every
value reachable with 5 retries). -/
def getBackoffTime (historyLen : ℕ) : ℚ :=
  if historyLen ≤ 1 then 0 else backoffFactor * 2 ^ (historyLen - 1)

/-- One run of urllib3 `HTTPConnectionPool.urlopen` with the mounted
retry-5 adapter.  `attempt` is the 0-based index of the current attempt
(also the length of the failure history so far); `remaining` is the current
`total` budget.  Returns the final result, the number of HTTP attempts
performed, and the list of back-off sleeps in order. -/
def retryLoop (method : String) (server : ℕ → Outcome) :
    (attempt : ℕ) → (remaining : ℕ) → PostResult × ℕ × List ℚ
  | i, remaining =>
    match server i with
    | .resp s =>
      if isRetryStatus method s then
        match remaining with
        | 0 => (.retryError, i + 1, []) -- MaxRetryError(ResponseError), raise_on_status
        | r + 1 =>
          let rest := retryLoop method server (i + 1) r
          (rest.1, rest.2.1, getBackoffTime (i + 1) :: rest.2.2)
      else (.resp s, i + 1, [])
    | .connErr =>
      match remaining with
      | 0 => (.connError, i + 1, []) -- MaxRetryError -> requests ConnectionError
      | r + 1 =>
        let rest := retryLoop method server (i + 1) r
        (rest.1, rest.2.1, getBackoffTime (i + 1) :: rest.2.2)
    | .readErr => (.readTimeout, i + 1, []) -- POST not retryable for read errors

/-- URL scheme of the classification endpoint. -/
inductive Scheme where
  | http
  | https
deriving DecidableEq, Repr

/-- Embedding of `post_with_retry(endpoint, payload, files)`: the retry-5
adapter is mounted only for `"https://"`, so an `https` endpoint goes
through `retryLoop` with `total=5` while an `http` endpoint is served by the
session's default zero-retry adapter (response returned whatever its status;
a connection failure raises immediately; a read error raises immediately).
The request method is always POST. -/
def post_with_retry (scheme : Scheme) (server : ℕ → Outcome) :
    PostResult × ℕ × List ℚ :=
  match scheme with
  | .https => retryLoop "POST" server 0 5
  | .http =>
    match server 0 with
    | .resp s => (.resp s, 1, [])
    | .connErr => (.connError, 1, [])
    | .readErr => (.readTimeout, 1, [])

/-! ## Timestamp parsing: `datetime.strptime(s, "%Y-%m-%dT%H:%M:%S.%f")`

Embedded from CPython `_strptime.py` for this fixed format.  The relevant
regex fragments are `%Y ↦ \d\d\d\d`, `%m ↦ 1[0-2]|0[1-9]|[1-9]`,
`%d ↦ 3[01]|[12]\d|0[1-9]|[1-9]`, `%H ↦ 2[0-3]|[0-1]\d|\d`,
`%M ↦ [0-5]\d|\d`, `%S ↦ 6[0-1]|[0-5]\d|\d`, `%f ↦ [0-9]{1,6}`; the overall
match must consume the whole string, and the parsed fields then construct a
`datetime`, which additionally requires a year from 1, a day within the
month, and seconds at most 59.  Note the leading zero is optional for
`%m`, `%d`, `%H`, `%M`, `%S` (documented CPython strptime behaviour), and
each numeric alternation is decided by the following separator, so a
deterministic longest-valid-first reading is faithful. -/

/-- Value of a decimal digit character. -/
def digitVal (c : Char) : Option ℕ :=
  if c.isDigit then some (c.toNat - 48) else none

/-- Parse one numeric strptime field: a two-digit form is taken when its
value lies in `[lo2, hi2]`, otherwise a single digit (which must be nonzero
unless `zeroOneDigit` is set, matching `[1-9]` versus `\d`). -/
def parseField (lo2 hi2 : ℕ) (zeroOneDigit : Bool) :
    List Char → Option (ℕ × List Char)
  | [] => none
  | c1 :: rest1 =>
    match digitVal c1 with
    | none => none
    | some d1 =>
      let oneDigit : Option (ℕ × List Char) :=
        if zeroOneDigit || decide (1 ≤ d1) then some (d1, rest1) else none
      match rest1 with
      | [] => oneDigit
      | c2 :: rest2 =>
        match digitVal c2 with
        | none => oneDigit
        | some d2 =>
          let v := 10 * d1 + d2
          if lo2 ≤ v ∧ v ≤ hi2 then some (v, rest2) else oneDigit

/-- Parse exactly four digits (`%Y`). -/
def parse4 : List Char → Option (ℕ × List Char)
  | a :: b :: c :: d :: rest => do
    let da ← digitVal a
    let db ← digitVal b
    let dc ← digitVal c
    let dd ← digitVal d
    pure (1000 * da + 100 * db + 10 * dc + dd, rest)
  | _ => none

/-- Parse `%f`: one to six digits taken greedily, right-padded with zeros to
a microsecond count. -/
def parseFrac (cs : List Char) : Option (ℕ × List Char) :=
  let taken := (cs.takeWhile Char.isDigit).take 6
  if taken.isEmpty then none
  else
    let v := taken.foldl (fun acc c => 10 * acc + (c.toNat - 48)) 0
    some (v * 10 ^ (6 - taken.length), cs.drop taken.length)

/-- Parse one literal separator character. -/
def parseLit (ch : Char) : List Char → Option (List Char)
  | [] => none
  | c :: rest => if c = ch then some rest else none

/-- Gregorian leap-year test. -/
def isLeapYear (y : ℕ) : Bool :=
  (y % 4 == 0 && y % 100 != 0) || y % 400 == 0

/-- Number of days in a month. -/
def daysInMonth (y m : ℕ) : ℕ :=
  if m = 2 then (if isLeapYear y then 29 else 28)
  else if m = 4 ∨ m = 6 ∨ m = 9 ∨ m = 11 then 30 else 31

/-- Days in year `y` before the first of month `m`. -/
def daysBeforeMonth (y m : ℕ) : ℕ :=
  (List.range (m - 1)).foldl (fun acc i => acc + daysInMonth y (i + 1)) 0

/-- Days in the proleptic Gregorian calendar strictly before year `y`
(counting from year 1). -/
def daysBeforeYear (y : ℕ) : ℕ :=
  365 * (y - 1) + (y - 1) / 4 - (y - 1) / 100 + (y - 1) / 400

/-- Microseconds since 0001-01-01T00:00:00 of a parsed timestamp. -/
def dateToMicros (y m d hh mm ss f : ℕ) : ℕ :=
  let days := daysBeforeYear y + daysBeforeMonth y m + (d - 1)
  (((days * 24 + hh) * 60 + mm) * 60 + ss) * 1000000 + f

/-- Embedding of `datetime.strptime(s, "%Y-%m-%dT%H:%M:%S.%f")` as
microseconds since 0001-01-01; `none` models the `ValueError` raised on a
non-conforming string. -/
def pyStrptimeMicros (s : String) : Option ℕ := do
  let cs0 := s.data
  let (y, cs1) ← parse4 cs0
  let cs2 ← parseLit '-' cs1
  let (m, cs3) ← parseField 1 12 false cs2
  let cs4 ← parseLit '-' cs3
  let (d, cs5) ← parseField 1 31 false cs4
  let cs6 ← parseLit 'T' cs5
  let (hh, cs7) ← parseField 0 23 true cs6
  let cs8 ← parseLit ':' cs7
  let (mm, cs9) ← parseField 0 59 true cs8
  let cs10 ← parseLit ':' cs9
  let (ss, cs11) ← parseField 0 61 true cs10
  let cs12 ← parseLit '.' cs11
  let (f, cs13) ← parseFrac cs12
  if cs13 = [] ∧ 1 ≤ y ∧ d ≤ daysInMonth y m ∧ ss ≤ 59 then
    pure (dateToMicros y m d hh mm ss f)
  else none

/-! ## Python string ordering (pandas `Series.min` / `Series.max` on the
`timestamp` column of strings reduce with Python `<`, lexicographic by code
point, a strict prefix comparing smaller). -/

/-- Python `<` on strings, as code-point lists. -/
def pyCharListLt : List Char → List Char → Bool
  | [], [] => false
  | [], _ :: _ => true
  | _ :: _, [] => false
  | a :: as, b :: bs =>
    if a.toNat < b.toNat then true
    else if b.toNat < a.toNat then false
    else pyCharListLt as bs

/-- Python `<` on strings. -/
def pyStrLt (s t : String) : Bool := pyCharListLt s.data t.data

/-- Reduction computing `Series.min` over a nonempty string column. -/
def pyMinFold (x : String) (xs : List String) : String :=
  xs.foldl (fun a b => if pyStrLt b a then b else a) x

/-- Reduction computing `Series.max` over a nonempty string column. -/
def pyMaxFold (x : String) (xs : List String) : String :=
  xs.foldl (fun a b => if pyStrLt a b then b else a) x

/-! ## TrackMetadataAggregator + upload: `send_track_data` -/

/-- One row of `{rec_start_format}_metadata.csv`. -/
structure TrackRow where
  track_ID : ℤ
  timestamp : String
deriving DecidableEq, Repr

/-- Environment a `send_track_data` call runs against: the session metadata
table (`none` when the CSV file does not exist), the listing of
`crop/insect`, and the remote endpoint (URL scheme plus per-attempt server
behaviour). -/
structure Env where
  metadata : Option (List TrackRow)
  cropListing : List String
  scheme : Scheme
  server : ℕ → Outcome

/-- Externally visible filesystem / network actions of `send_track_data`,
in program order. -/
inductive Effect where
  /-- `pd.read_csv` of the metadata file -/
  | readMetadata
  /-- `os.listdir` of the `crop/insect` directory -/
  | listCrop
  /-- `open(fp, "rb")` of one crop file for the multipart upload -/
  | openFile (f : String)
  /-- closing one previously opened crop file (the script never does this) -/
  | closeFile (f : String)
  /-- the HTTP POST issued via `post_with_retry` -/
  | post
deriving DecidableEq, Repr

/-- The aggregated per-track payload (timestamps in microseconds since
0001-01-01; `duration_s = int((end_date - start_date).total_seconds())`,
truncation toward zero). -/
structure TrackSummary where
  start_date : ℕ
  end_date : ℕ
  duration_s : ℤ
  files : List String
deriving DecidableEq, Repr

/-- Result of a `send_track_data` call. -/
inductive STResult where
  /-- one of the two early `return` paths (missing file / no matching rows) -/
  | skipped
  /-- `datetime.strptime` raised `ValueError` on the min or max string -/
  | parseError
  /-- the summary was built and the POST performed, delivering `r` -/
  | done (s : TrackSummary) (r : PostResult)
deriving DecidableEq, Repr

/-- The summary carried by a completed result, if any. -/
def STResult.summaryOf : STResult → Option TrackSummary
  | .done s _ => some s
  | _ => none

/-- Python `f.split("_")` on code-point lists: splits at every underscore
and keeps empty pieces (`"".split("_") == [""]`). -/
def pySplitUnderscore : List Char → List (List Char)
  | [] => [[]]
  | c :: rest =>
    if c = '_' then [] :: pySplitUnderscore rest
    else
      match pySplitUnderscore rest with
      | [] => [[c]] -- not reached: the split of any list is nonempty
      | piece :: pieces => (c :: piece) :: pieces

/-- The crop-file filter of `send_track_data`:
`f"ID{track_id}" in f.split("_")` — list membership, i.e. some
underscore-delimited token equals the whole of `ID<track_id>`. -/
def trackFileMatch (track_id : ℤ) (f : String) : Bool :=
  ("ID" ++ toString track_id).data ∈ pySplitUnderscore f.data

/-- Embedding of `send_track_data(track_id, save_path, rec_start_format)`:
returns the call's result and the trace of its filesystem/network effects. -/
def send_track_data (env : Env) (track_id : ℤ) : STResult × List Effect :=
  match env.metadata with
  | none => (.skipped, [])
  | some rows =>
    let track_data := rows.filter (fun r => r.track_ID == track_id)
    match track_data.map TrackRow.timestamp with
    | [] => (.skipped, [.readMetadata]) -- `track_data.empty` short-circuit
    | t :: ts =>
      match pyStrptimeMicros (pyMinFold t ts), pyStrptimeMicros (pyMaxFold t ts) with
      | some startMicros, some endMicros =>
        let duration : ℤ := Int.tdiv ((endMicros : ℤ) - (startMicros : ℤ)) 1000000
        let track_files := env.cropListing.filter (trackFileMatch track_id)
        let posted := post_with_retry env.scheme env.server
        (.done ⟨startMicros, endMicros, duration, track_files⟩ posted.1,
         [.readMetadata, .listCrop] ++ track_files.map Effect.openFile ++ [.post])
      | _, _ => (.parseError, [.readMetadata])

/-! ## Concrete environments used by witnesses and counterexamples -/

/-- Endpoint of the first spec scenario: 503 on the first three attempts,
then 200. -/
def srv503x3 : ℕ → Outcome := fun i => if i < 3 then .resp 503 else .resp 200

/-- Session with two rows for track 7, 5.5 seconds apart. -/
def envDur : Env :=
  ⟨some [⟨7, "2024-01-01T10:00:00.000000"⟩, ⟨7, "2024-01-01T10:00:05.500000"⟩],
   [], .https, fun _ => .resp 200⟩

/-- Session with two rows for track 7 whose timestamps both parse under the
fixed format (CPython strptime accepts a month without its leading zero),
but whose lexicographic string order disagrees with chronological order. -/
def envLex : Env :=
  ⟨some [⟨7, "2024-10-01T10:00:00.000000"⟩, ⟨7, "2024-2-01T10:00:00.000000"⟩],
   [], .https, fun _ => .resp 200⟩

/-- Session whose crop directory holds files for tracks 1 and 10. -/
def envCrop : Env :=
  ⟨some [⟨1, "2024-01-01T10:00:00.000000"⟩],
   ["img_ID1_001.jpg", "img_ID10_001.jpg"], .https, fun _ => .resp 200⟩

/-- Session whose metadata CSV does not exist. -/
def envNoMeta : Env :=
  ⟨none, ["img_ID1_001.jpg"], .https, fun _ => .resp 200⟩

/-- Session whose metadata holds no row for track 1. -/
def envNoRows : Env :=
  ⟨some [⟨2, "2024-01-01T10:00:00.000000"⟩],
   ["img_ID1_001.jpg"], .https, fun _ => .resp 200⟩

/-! ## Supporting lemmas -/

theorem clip01_nonneg (x : ℚ) : 0 ≤ clip01 x :=
  le_min (le_max_right x 0) zero_le_one

theorem clip01_le_one (x : ℚ) : clip01 x ≤ 1 :=
  min_le_right _ _

theorem npTrunc_of_nonneg {q : ℚ} (h : 0 ≤ q) : npTrunc q = ⌊q⌋ := by
  unfold npTrunc
  rw [if_neg (not_lt.mpr h)]

theorem clip_scale_nonneg (x : ℚ) (n : ℕ) : 0 ≤ clip01 x * n :=
  mul_nonneg (clip01_nonneg x) (by positivity)

theorem npTrunc_clip_scale_bounds (x : ℚ) (n : ℕ) :
    0 ≤ npTrunc (clip01 x * n) ∧ npTrunc (clip01 x * n) ≤ n := by
  have h0 := clip_scale_nonneg x n
  rw [npTrunc_of_nonneg h0]
  constructor
  · exact Int.le_floor.mpr (by exact_mod_cast h0)
  · have h1 : clip01 x * n ≤ (n : ℚ) := by
      calc clip01 x * n ≤ 1 * n :=
            mul_le_mul_of_nonneg_right (clip01_le_one x) (by positivity)
        _ = n := one_mul _
    exact (Int.floor_le_floor h1).trans_eq (Int.floor_natCast n)

theorem isMethodRetryable_post : isMethodRetryable "POST" = false := by decide

theorem isRetryStatus_post (s : ℕ) : isRetryStatus "POST" s = false := by
  simp [isRetryStatus, isMethodRetryable_post]

/-- Structure of a POST run of the mounted urllib3 retry loop: the attempt
count stays within the budget, one back-off sleep of
`getBackoffTime (number of failures so far)` precedes each retry, and an
attempt beyond the first happens only after a connection failure (the POST
method is outside the default allowed set, so no status is ever retried). -/
theorem retryLoop_post_structure (server : ℕ → Outcome) (rem : ℕ) :
    ∀ i : ℕ,
      i + 1 ≤ (retryLoop "POST" server i rem).2.1 ∧
      (retryLoop "POST" server i rem).2.1 ≤ i + 1 + rem ∧
      (retryLoop "POST" server i rem).2.2 =
        (List.range ((retryLoop "POST" server i rem).2.1 - (i + 1))).map
          (fun j => getBackoffTime (i + 1 + j)) ∧
      ∀ j, i ≤ j → j + 1 < (retryLoop "POST" server i rem).2.1 →
        server j = .connErr := by
  induction rem with
  | zero =>
    intro i
    cases hs : server i with
    | resp s =>
      refine ⟨?_, ?_, ?_, ?_⟩ <;>
        simp [retryLoop, hs, isRetryStatus_post] <;> omega
    | connErr =>
      refine ⟨?_, ?_, ?_, ?_⟩ <;> simp [retryLoop, hs] <;> omega
    | readErr =>
      refine ⟨?_, ?_, ?_, ?_⟩ <;> simp [retryLoop, hs] <;> omega
  | succ r ih =>
    intro i
    cases hs : server i with
    | resp s =>
      refine ⟨?_, ?_, ?_, ?_⟩ <;>
        simp [retryLoop, hs, isRetryStatus_post] <;> omega
    | connErr =>
      obtain ⟨h1, h2, h3, h4⟩ := ih (i + 1)
      have hval : retryLoop "POST" server i (r + 1) =
          ((retryLoop "POST" server (i + 1) r).1,
           (retryLoop "POST" server (i + 1) r).2.1,
           getBackoffTime (i + 1) :: (retryLoop "POST" server (i + 1) r).2.2) := by
        simp [retryLoop, hs]
      refine ⟨?_, ?_, ?_, ?_⟩
      · simp only [hval]; omega
      · simp only [hval]; omega
      · simp only [hval]
        have hlen : (retryLoop "POST" server (i + 1) r).2.1 - (i + 1) =
            ((retryLoop "POST" server (i + 1) r).2.1 - (i + 2)) + 1 := by omega
        rw [hlen, List.range_succ_eq_map, List.map_cons, List.map_map, h3,
          List.cons.injEq]
        refine ⟨rfl, ?_⟩
        apply List.map_congr_left
        intro j _
        simp only [Function.comp_apply]
        congr 1
        omega
      · intro j hij hjn
        simp only [hval] at hjn
        rcases Nat.eq_or_lt_of_le hij with heq | hlt
        · rw [← heq]; exact hs
        · exact h4 j hlt hjn
    | readErr =>
      refine ⟨?_, ?_, ?_, ?_⟩ <;> simp [retryLoop, hs] <;> omega

/-! ## Claim theorems -/

/-- C1 (amended): for every upload POST over https, at most 5 retries are
performed beyond the first attempt; the sleep before retry `k` is
`getBackoffTime k`, which is 0 for the first retry and
`backoff_factor * 2 ^ (k - 1)` for `k ≥ 2` (0, 0.2, 0.4, 0.8, 1.6 s); and a
retry happens only after an underlying connection failure — never for an
HTTP status, the forcelist 429/500/502/503/504 notwithstanding, because the
`Retry` object keeps the default `allowed_methods`, which excludes POST. -/
theorem post_backoff_schedule (server : ℕ → Outcome) :
    1 ≤ (post_with_retry .https server).2.1 ∧
    (post_with_retry .https server).2.1 ≤ 6 ∧
    (post_with_retry .https server).2.2 =
      (List.range ((post_with_retry .https server).2.1 - 1)).map
        (fun j => getBackoffTime (1 + j)) ∧
    (∀ j, j + 1 < (post_with_retry .https server).2.1 → server j = .connErr) ∧
    getBackoffTime 1 = 0 ∧
    ∀ k, 2 ≤ k → getBackoffTime k = backoffFactor * 2 ^ (k - 1) := by
  obtain ⟨h1, h2, h3, h4⟩ := retryLoop_post_structure server 5 0
  refine ⟨h1, h2, h3, fun j hj => h4 j (Nat.zero_le j) hj, by decide, ?_⟩
  intro k hk
  unfold getBackoffTime
  rw [if_neg (by omega)]

/-- C1 witness: the amended schedule applied to an endpoint whose connection
always fails, discharging the hypothesis of the `k ≥ 2` backoff formula. -/
theorem post_backoff_schedule_witness :
    getBackoffTime 5 = backoffFactor * 2 ^ 4 ∧
    (post_with_retry .https fun _ => .connErr).2.1 ≤ 6 :=
  ⟨(post_backoff_schedule fun _ => .connErr).2.2.2.2.2 5 (by decide),
   (post_backoff_schedule fun _ => .connErr).2.1⟩

/-- C1 counterexample: against the spec scenario — 503 three times, then
200 — the claim prescribes automatic retries (503 is in the forcelist) with
a first wait of 0.1 s and a final 200 response after 4 attempts; the code
instead returns the first 503 response after a single attempt with no
backoff sleep at all, because POST is outside the default retryable-methods
set. -/
theorem post_503_not_retried_cex :
    post_with_retry .https srv503x3 = (.resp 503, 1, []) ∧
    503 ∈ statusForcelist ∧
    srv503x3 0 = .resp 503 ∧
    (PostResult.resp 503, 1, ([] : List ℚ)) ≠
      (PostResult.resp 200, 4, [1 / 10, 1 / 5, 2 / 5]) := by
  refine ⟨by decide, by decide, by decide, by decide⟩

/-- C8 (amended): against an endpoint that answers 500 on the first
attempt, the upload performs exactly one HTTP attempt — no retries, no
backoff, since status-based retry is disabled for POST — and the 500
response object itself is returned to the caller, which in
`send_track_data` is printed; no exception is raised and the session is not
interrupted on this path. -/
theorem always_500_single_attempt (server : ℕ → Outcome)
    (h : server 0 = .resp 500) :
    post_with_retry .https server = (.resp 500, 1, []) := by
  simp [post_with_retry, retryLoop, h, isRetryStatus_post]

/-- C8 witness: the single-attempt behaviour at the concrete always-500
endpoint. -/
theorem always_500_single_attempt_witness :
    post_with_retry .https (fun _ => .resp 500) = (.resp 500, 1, []) :=
  always_500_single_attempt (fun _ => .resp 500) rfl

/-- C8 counterexample: against the always-500 endpoint the claim prescribes
failure after 5 retries, i.e. 6 total HTTP attempts; the code performs
exactly 1 attempt. -/
theorem always_500_not_six_attempts_cex :
    (post_with_retry .https fun _ => .resp 500).2.1 = 1 ∧ (1 : ℕ) ≠ 6 := by
  refine ⟨by decide, by decide⟩

/-- C9: an upload answered with a non-retryable 4xx status (any 4xx other
than 429, e.g. 404) on the first attempt surfaces that response immediately:
one HTTP attempt, zero retries and zero backoff waiting. -/
theorem non_retryable_4xx_immediate (server : ℕ → Outcome) (s : ℕ)
    (hresp : server 0 = .resp s) (h4 : 400 ≤ s) (h5 : s < 500)
    (h429 : s ≠ 429) :
    post_with_retry .https server = (.resp s, 1, []) := by
  simp [post_with_retry, retryLoop, hresp, isRetryStatus_post]

/-- C9 witness: the immediate-surface behaviour at a concrete endpoint
returning 404. -/
theorem non_retryable_4xx_immediate_witness :
    post_with_retry .https (fun _ => .resp 404) = (.resp 404, 1, []) :=
  non_retryable_4xx_immediate (fun _ => .resp 404) 404 rfl (by decide)
    (by decide) (by decide)

/-- C10: the retry-configured adapter is mounted only for the
`https://` prefix, so a POST to a plain `http` endpoint goes through the
session's default adapter: exactly one HTTP attempt, an empty backoff
schedule, the response surfaced whatever its status, and a connection
failure raised without any retry. -/
theorem http_scheme_default_adapter (server : ℕ → Outcome) :
    (post_with_retry .http server).2.1 = 1 ∧
    (post_with_retry .http server).2.2 = [] ∧
    (∀ s, server 0 = .resp s → (post_with_retry .http server).1 = .resp s) ∧
    (server 0 = .connErr → (post_with_retry .http server).1 = .connError) := by
  cases h : server 0 <;>
    simp [post_with_retry, h]

/-- C10 witness: the default-adapter behaviour at a concrete http endpoint
whose connection fails, discharging the connection-failure hypothesis. -/
theorem http_scheme_default_adapter_witness :
    (post_with_retry .http fun _ => .connErr).1 = .connError :=
  (http_scheme_default_adapter fun _ => .connErr).2.2.2 rfl

/-- C2: `frame_norm` first clamps each of the four normalized components
into [0, 1], scales indices 0 and 2 by the frame width `shape[1]` and
indices 1 and 3 by the frame height `shape[0]`, and converts to integer
pixel coordinates; it is total (never fails on out-of-range input) and
every output component lies within [0, corresponding dimension].  The spec
example: box (-0.2, 0.5, 1.3, 0.9) on a 320x320 frame maps to
(0, 160, 320, 288). -/
theorem frame_norm_clamped_bounds (fr : FrameShape) (b : ℚ × ℚ × ℚ × ℚ) :
    frame_norm fr b =
      (⌊clip01 b.1 * fr.w⌋, ⌊clip01 b.2.1 * fr.h⌋,
       ⌊clip01 b.2.2.1 * fr.w⌋, ⌊clip01 b.2.2.2 * fr.h⌋) ∧
    (0 ≤ (frame_norm fr b).1 ∧ (frame_norm fr b).1 ≤ fr.w) ∧
    (0 ≤ (frame_norm fr b).2.1 ∧ (frame_norm fr b).2.1 ≤ fr.h) ∧
    (0 ≤ (frame_norm fr b).2.2.1 ∧ (frame_norm fr b).2.2.1 ≤ fr.w) ∧
    (0 ≤ (frame_norm fr b).2.2.2 ∧ (frame_norm fr b).2.2.2 ≤ fr.h) ∧
    frame_norm ⟨320, 320⟩ (-1/5, 1/2, 13/10, 9/10) = (0, 160, 320, 288) := by
  have e : ∀ (x : ℚ) (n : ℕ), npTrunc (clip01 x * n) = ⌊clip01 x * n⌋ :=
    fun x n => npTrunc_of_nonneg (clip_scale_nonneg x n)
  refine ⟨?_, ?_, ?_, ?_, ?_, by norm_num [frame_norm, clip01, npTrunc]⟩
  · simp only [frame_norm, e]
  · exact npTrunc_clip_scale_bounds b.1 fr.w
  · exact npTrunc_clip_scale_bounds b.2.1 fr.h
  · exact npTrunc_clip_scale_bounds b.2.2.1 fr.w
  · exact npTrunc_clip_scale_bounds b.2.2.2 fr.h

/-- C7 (amended): retrieval in the preview loop is blocking —
`q_frame.get()` and `q_nn.get()` wait for a message — so an iteration
reaches the quit-key check exactly when both queues have an item available;
when either queue is empty the iteration stalls in `get` instead of
proceeding. -/
theorem preview_get_blocking (qF qN : List ℕ) :
    previewIteration qF qN = .ranQuitCheck ↔ qF ≠ [] ∧ qN ≠ [] := by
  cases qF <;> cases qN <;> simp [previewIteration]

/-- C7 counterexample: with no item ready in either queue the iteration
blocks; the claim prescribes that it instead proceeds to service the
quit-key check. -/
theorem preview_blocks_on_empty_cex :
    previewIteration [] [] = .blocked ∧
    IterOutcome.blocked ≠ IterOutcome.ranQuitCheck := by
  refine ⟨rfl, by decide⟩

/-- C7 witness: an iteration with one frame and one detection batch ready
completes to the quit-key check, discharging the nonemptiness conditions. -/
theorem preview_get_blocking_witness :
    previewIteration [1] [2] = .ranQuitCheck :=
  (preview_get_blocking [1] [2]).mpr (by decide)

/-- C3: a filename is selected for a track's upload exactly when splitting
it on underscore yields a token equal to the whole of `ID<track_id>`; in
particular `img_ID1_001.jpg` is selected for track 1 while
`img_ID10_001.jpg` is not (token equality, not substring containment), and
summarizing track 1 over a directory holding both files uploads only the
first. -/
theorem track_file_token_selection :
    (∀ (tid : ℤ) (f : String),
      trackFileMatch tid f = true ↔
        ("ID" ++ toString tid).data ∈ pySplitUnderscore f.data) ∧
    trackFileMatch 1 "img_ID1_001.jpg" = true ∧
    trackFileMatch 1 "img_ID10_001.jpg" = false ∧
    Option.map TrackSummary.files
        (STResult.summaryOf (send_track_data envCrop 1).1) =
      some ["img_ID1_001.jpg"] := by
  refine ⟨?_, by decide, by decide, by decide⟩
  intro tid f
  simp [trackFileMatch]

/-- C3 witness: the selection of `img_ID1_001.jpg` for track 1 unfolded to
its token-membership form through the selection criterion. -/
theorem track_file_token_selection_witness :
    ("ID" ++ toString (1 : ℤ)).data ∈ pySplitUnderscore "img_ID1_001.jpg".data :=
  (track_file_token_selection.1 1 "img_ID1_001.jpg").mp (by decide)

/-- C4 (amended): when the metadata file exists and at least one row
matches the track, `start_date` is the timestamp parsed from the
lexicographically smallest timestamp string of the matching rows,
`end_date` from the lexicographically largest, and `duration_s` is the
truncation toward zero of their difference in seconds; `duration_s` is 0
when the two coincide.  (For canonically zero-padded timestamp strings the
lexicographic and the chronological order agree, but the string minimum is
what the code computes.) -/
theorem track_dates_from_lex_min_max (env : Env) (tid : ℤ)
    (rows : List TrackRow) (t : String) (ts : List String)
    (μmin μmax : ℕ)
    (hmeta : env.metadata = some rows)
    (hts : (rows.filter (fun r => r.track_ID == tid)).map TrackRow.timestamp
      = t :: ts)
    (hmin : pyStrptimeMicros (pyMinFold t ts) = some μmin)
    (hmax : pyStrptimeMicros (pyMaxFold t ts) = some μmax) :
    send_track_data env tid =
      (.done ⟨μmin, μmax, Int.tdiv ((μmax : ℤ) - (μmin : ℤ)) 1000000,
              env.cropListing.filter (trackFileMatch tid)⟩
         (post_with_retry env.scheme env.server).1,
       [.readMetadata, .listCrop] ++
         (env.cropListing.filter (trackFileMatch tid)).map Effect.openFile ++
         [.post]) ∧
    (μmin = μmax → Int.tdiv ((μmax : ℤ) - (μmin : ℤ)) 1000000 = 0) := by
  constructor
  · simp only [send_track_data, hmeta, hts, hmin, hmax]
  · intro h
    rw [h, sub_self]
    decide

/-- C4 witness: the spec example — two rows for track 7, 5.5 seconds
apart — yields `duration_s = 5` (floor, not round). -/
theorem track_dates_from_lex_min_max_witness :
    (send_track_data envDur 7).1 =
      .done ⟨63839700000000000, 63839700005500000, 5, []⟩ (.resp 200) := by
  rw [(track_dates_from_lex_min_max envDur 7
      [⟨7, "2024-01-01T10:00:00.000000"⟩, ⟨7, "2024-01-01T10:00:05.500000"⟩]
      "2024-01-01T10:00:00.000000" ["2024-01-01T10:00:05.500000"]
      63839700000000000 63839700005500000 rfl (by decide) (by decide)
      (by decide)).1]
  decide

/-- C4 counterexample: both timestamps of `envLex` parse under the fixed
format (CPython strptime accepts the month without its leading zero), the
chronological minimum of the two instants is the February one, yet the
computed `start_date` is the October instant: the code parses the pandas
string minimum, which is lexicographic, so "start_date is the minimum
timestamp" fails, and here `end_date < start_date`, making the duration
negative (where truncation differs from floor on non-integral values). -/
theorem track_start_not_chronological_min_cex :
    pyStrptimeMicros "2024-2-01T10:00:00.000000" = some 63842378400000000 ∧
    pyStrptimeMicros "2024-10-01T10:00:00.000000" = some 63863373600000000 ∧
    Option.map TrackSummary.start_date
        (STResult.summaryOf (send_track_data envLex 7).1) =
      some 63863373600000000 ∧
    (63842378400000000 : ℕ) < 63863373600000000 := by
  refine ⟨by decide, by decide, by decide, by decide⟩

/-- C5: when the session's metadata file does not exist, or it exists but
no row matches the requested track, `send_track_data` returns without an
error and without listing the crop directory; the crop directory is listed,
and a summary produced, only when at least one matching row exists. -/
theorem absent_metadata_no_op (env : Env) (tid : ℤ) :
    (env.metadata = none → send_track_data env tid = (.skipped, [])) ∧
    (∀ rows, env.metadata = some rows →
      rows.filter (fun r => r.track_ID == tid) = [] →
      send_track_data env tid = (.skipped, [.readMetadata])) ∧
    (Effect.listCrop ∈ (send_track_data env tid).2 →
      ∃ rows, env.metadata = some rows ∧
        rows.filter (fun r => r.track_ID == tid) ≠ []) ∧
    (∀ s r, (send_track_data env tid).1 = .done s r →
      ∃ rows, env.metadata = some rows ∧
        rows.filter (fun r2 => r2.track_ID == tid) ≠ []) := by
  cases hm : env.metadata with
  | none =>
    have hsend : send_track_data env tid = (.skipped, []) := by
      simp [send_track_data, hm]
    refine ⟨fun _ => hsend, ?_, ?_, ?_⟩
    · intro rows h
      exact absurd h (by simp)
    · intro hmem
      rw [hsend] at hmem
      simp at hmem
    · intro s r h
      rw [hsend] at h
      simp at h
  | some rows =>
    cases hf : rows.filter (fun r => r.track_ID == tid) with
    | nil =>
      have hsend : send_track_data env tid = (.skipped, [.readMetadata]) := by
        simp [send_track_data, hm, hf]
      refine ⟨fun h => absurd h (by simp), fun _ _ _ => hsend, ?_, ?_⟩
      · intro hmem
        rw [hsend] at hmem
        simp at hmem
      · intro s r h
        rw [hsend] at h
        simp at h
    | cons a as =>
      refine ⟨fun h => absurd h (by simp), ?_, ?_, ?_⟩
      · intro rows2 h1 h2
        injection h1 with h1
        subst h1
        rw [h2] at hf
        exact absurd hf (by simp)
      · intro _
        exact ⟨rows, rfl, by simp [hf]⟩
      · intro s r _
        exact ⟨rows, rfl, by simp [hf]⟩

/-- C5 witness: the two no-op paths at concrete sessions — metadata file
missing, and metadata present with no row for track 1 — return `skipped`
without touching the crop directory. -/
theorem absent_metadata_no_op_witness :
    send_track_data envNoMeta 1 = (.skipped, []) ∧
    send_track_data envNoRows 1 = (.skipped, [.readMetadata]) :=
  ⟨(absent_metadata_no_op envNoMeta 1).1 rfl,
   (absent_metadata_no_op envNoRows 1).2.1
     [⟨2, "2024-01-01T10:00:00.000000"⟩] rfl (by decide)⟩

/-- C6 (amended): `send_track_data` never closes the file handles it opens
for the multipart upload — on no path does a close action occur; the
handles stay open when the call completes and their release is left to the
Python runtime. -/
theorem upload_never_closes_files (env : Env) (tid : ℤ) (f : String) :
    Effect.closeFile f ∉ (send_track_data env tid).2 := by
  unfold send_track_data
  cases hm : env.metadata with
  | none => simp
  | some rows =>
    cases hl : (rows.filter (fun r => r.track_ID == tid)).map
        TrackRow.timestamp with
    | nil => simp [hl]
    | cons t ts =>
      cases hmin : pyStrptimeMicros (pyMinFold t ts) with
      | none => simp [hl, hmin]
      | some a =>
        cases hmax : pyStrptimeMicros (pyMaxFold t ts) with
        | none => simp [hl, hmin, hmax]
        | some b => simp [hl, hmin, hmax, List.mem_map]

/-- C6 witness: the no-close guarantee applied at a concrete session. -/
theorem upload_never_closes_files_witness :
    Effect.closeFile "img_ID1_001.jpg" ∉ (send_track_data envNoMeta 1).2 :=
  upload_never_closes_files envNoMeta 1 "img_ID1_001.jpg"

/-- C6 counterexample: at a concrete session uploading one crop file, the
file is opened for the POST and no close of it ever happens — refuting the
claim that every handle opened for the upload is released after the
request completes. -/
theorem upload_leaves_file_open_cex :
    Effect.openFile "img_ID1_001.jpg" ∈ (send_track_data envCrop 1).2 ∧
    Effect.closeFile "img_ID1_001.jpg" ∉ (send_track_data envCrop 1).2 := by
  refine ⟨by decide, by decide⟩

end InsectDetect
